import Mathlib

/-!
Verification of the static validation and shape/type-inference core of the
ngraph computation-graph IR, as specified for the index-selection (NonZero)
and box-filtering (NonMaxSuppression) operations.

The repository files contain the declaration of `NonZero` (including its
`validate_and_infer_types` entry point, src/src/ngraph/op/non_zero.hpp) and
the type-propagation tests for `NonMaxSuppression`
(src/test/type_prop/non_max_suppression.cpp), which pin the diagnostic key
phrases and the expected output shapes.  The bodies of the two
`validate_and_infer_types` implementations are not among the repository
files, so they are modelled below from the specification, with the
diagnostic messages taken verbatim from the substrings the tests match on.
-/

namespace NGraphSpec

/-- A tensor dimension: a statically known non-negative length, or unknown
(dynamic). -/
inductive Dimension where
  | known : Nat → Dimension
  | dynamic : Dimension
deriving DecidableEq

/-- A partial shape: rank unknown, or a list of dimensions of known length
(the rank). -/
inductive PartialShape where
  | dynamicRank : PartialShape
  | staticRank : List Dimension → PartialShape
deriving DecidableEq

/-- The rank of a partial shape, when known. -/
def PartialShape.rank : PartialShape → Option Nat
  | .dynamicRank => none
  | .staticRank dims => some dims.length

/-- Dimension access; a shape of unknown rank yields a dynamic dimension, as
does an index past the end. -/
def PartialShape.dim : PartialShape → Nat → Dimension
  | .dynamicRank, _ => Dimension.dynamic
  | .staticRank dims, i => dims.getD i Dimension.dynamic

/-- Two dimensions are compatible if either is unknown or both are equal. -/
def Dimension.compatible : Dimension → Dimension → Bool
  | .known m, .known n => m == n
  | _, _ => true

/-- The closed set of element kinds, plus a dynamic marker. -/
inductive ElementType where
  | dynamic | boolean | bf16 | f16 | f32 | f64
  | i8 | i16 | i32 | i64 | u8 | u16 | u32 | u64
deriving DecidableEq

/-- Whether `ps` has a known rank different from `r` (a provable rank
violation; an unknown rank is compatible with any required rank). -/
def rankKnownAndNot (ps : PartialShape) (r : Nat) : Bool :=
  match ps.rank with
  | none => false
  | some k => k != r

/-- Whether `key` is a prefix of `l`. -/
def charsHavePre : List Char → List Char → Bool
  | [], _ => true
  | _ :: _, [] => false
  | k :: ks, c :: cs => k == c && charsHavePre ks cs

/-- Whether `key` occurs as a contiguous sublist of `l`. -/
def charsHaveSub (key : List Char) : List Char → Bool
  | [] => charsHavePre key []
  | c :: cs => charsHavePre key (c :: cs) || charsHaveSub key cs

/-- Whether the diagnostic message `msg` contains `key` as a substring (the
relation the test harness matches with EXPECT_HAS_SUBSTRING). -/
def msgHas (msg key : String) : Bool :=
  charsHaveSub key.data msg.data

/-- Diagnostic for index selection on an input of unknown rank. -/
def nonZeroDynamicRankMsg : String :=
  "NonZero: the rank of the \x27data\x27 input must be known"

/-- Diagnostic for index selection on a rank-0 input; it names the input and
its observed rank. -/
def nonZeroScalarMsg : String :=
  "NonZero: the \x27data\x27 input must have a rank of at least 1. Got rank 0"

/-- Modelled from the spec: the body of `NonZero::validate_and_infer_types`
is not among the repository files (src/src/ngraph/op/non_zero.hpp declares
it only); section 4.4 of the spec gives its inference rule.  The input rank
must be known and at least 1; the output is a rank-2 shape whose dimension 0
is the input rank and whose dimension 1 is unknown, with a fixed integer
element type. -/
def NonZero.validate_and_infer_types (data : PartialShape) :
    Except String (PartialShape × ElementType) :=
  match data.rank with
  | none => .error nonZeroDynamicRankMsg
  | some 0 => .error nonZeroScalarMsg
  | some r => .ok (.staticRank [.known r, .dynamic], .i64)

/-- Diagnostic key phrase for a `boxes` input whose rank is not 3
(src/test/type_prop/non_max_suppression.cpp, nms_incorrect_boxes_rank). -/
def nmsBoxesRankMsg : String :=
  "Expected a 3D tensor for the \x27boxes\x27 input"

/-- Diagnostic key phrase for a `scores` input whose rank is not 3
(src/test/type_prop/non_max_suppression.cpp, nms_incorrect_scores_rank). -/
def nmsScoresRankMsg : String :=
  "Expected a 3D tensor for the \x27scores\x27 input"

/-- Diagnostic key phrase for a num_batches mismatch
(src/test/type_prop/non_max_suppression.cpp, nms_incorrect_scheme_num_batches). -/
def nmsNumBatchesMsg : String :=
  "The first dimension of both \x27boxes\x27 and \x27scores\x27 must match"

/-- Diagnostic key phrase for a num_boxes mismatch
(src/test/type_prop/non_max_suppression.cpp, nms_incorrect_scheme_num_boxes). -/
def nmsNumBoxesMsg : String :=
  "\x27boxes\x27 and \x27scores\x27 input shapes must match at the second and third dimension respectively"

/-- Diagnostic for a non-scalar where one of the three optional scalar
inputs was required, naming that input by its semantic name
(src/test/type_prop/non_max_suppression.cpp, nms_scalar_inputs_check). -/
def nmsScalarMsg (name : String) : String :=
  "Expected a scalar for the \x27" ++ name ++ "\x27 input"

/-- Whether an optional input, when present, provably fails the scalar
(rank 0) requirement. -/
def nonScalarViolation : Option PartialShape → Bool
  | none => false
  | some ps => rankKnownAndNot ps 0

/-- Modelled from the spec: the body of
`NonMaxSuppression::validate_and_infer_types` is not among the repository
files (only its type-propagation tests,
src/test/type_prop/non_max_suppression.cpp); section 4.5 of the spec gives
the preconditions in order, and the tests fix the diagnostic key phrases.
Checks, first violation reported: `boxes` rank 3; `scores` rank 3; dimension
0 of both compatible; `boxes` dimension 1 compatible with `scores` dimension
2; each optional scalar input of rank 0.  On success the output is
(unknown, 3) with a fixed integer element type. -/
def NonMaxSuppression.validate_and_infer_types
    (boxes scores : PartialShape)
    (max_output_boxes_per_class iou_threshold score_threshold : Option PartialShape) :
    Except String (PartialShape × ElementType) :=
  if rankKnownAndNot boxes 3 then
    .error nmsBoxesRankMsg
  else if rankKnownAndNot scores 3 then
    .error nmsScoresRankMsg
  else if !(Dimension.compatible (boxes.dim 0) (scores.dim 0)) then
    .error nmsNumBatchesMsg
  else if !(Dimension.compatible (boxes.dim 1) (scores.dim 2)) then
    .error nmsNumBoxesMsg
  else if nonScalarViolation max_output_boxes_per_class then
    .error (nmsScalarMsg "max_output_boxes_per_class")
  else if nonScalarViolation iou_threshold then
    .error (nmsScalarMsg "iou_threshold")
  else if nonScalarViolation score_threshold then
    .error (nmsScalarMsg "score_threshold")
  else
    .ok (.staticRank [.dynamic, .known 3], .i64)

/-- The kind of an operation node together with the partial shapes wired
onto its input ports. -/
inductive OpKind where
  | nonZero : PartialShape → OpKind
  | nonMaxSuppression : PartialShape → PartialShape →
      Option PartialShape → Option PartialShape → Option PartialShape → OpKind
deriving DecidableEq

/-- The per-operation inference rule, dispatched on the node kind. -/
def OpKind.infer : OpKind → Except String (PartialShape × ElementType)
  | .nonZero data => NonZero.validate_and_infer_types data
  | .nonMaxSuppression boxes scores m i s =>
      NonMaxSuppression.validate_and_infer_types boxes scores m i s

/-- An operation node: its kind (with wired inputs) and its single output
port carrying a partial shape and an element type. -/
structure Node where
  kind : OpKind
  outputShape : PartialShape
  outputType : ElementType
deriving DecidableEq

/-- The inference entry point on a node: on success it writes the inferred
shape and type onto the node output port; on failure it raises the
diagnostic and the outputs must not be read. -/
def Node.validateAndInferTypes (n : Node) : Except String Node :=
  match n.kind.infer with
  | .ok (ps, et) => .ok { n with outputShape := ps, outputType := et }
  | .error e => .error e

/-- C1: whenever all preconditions of box filtering pass, inference succeeds
with an output partial shape of rank exactly 2 whose dimension 1 is the
fixed constant 3 and whose dimension 0 is unknown, and a fixed integer
element type. -/
theorem C1_nms_out_shape (boxes scores : PartialShape)
    (m i s : Option PartialShape) (ps : PartialShape) (et : ElementType)
    (h : NonMaxSuppression.validate_and_infer_types boxes scores m i s = .ok (ps, et)) :
    ps = .staticRank [.dynamic, .known 3] ∧ et = .i64 := by
  unfold NonMaxSuppression.validate_and_infer_types at h
  repeat' split at h
  all_goals simp_all

theorem C1_nms_out_shape_witness :
    PartialShape.staticRank [Dimension.dynamic, Dimension.known 3]
        = PartialShape.staticRank [.dynamic, .known 3] ∧
    ElementType.i64 = ElementType.i64 :=
  C1_nms_out_shape (.staticRank [.known 1, .known 2, .known 4])
    (.staticRank [.known 1, .known 2, .known 2])
    (some (.staticRank [])) (some (.staticRank [])) (some (.staticRank []))
    (.staticRank [.dynamic, .known 3]) .i64 rfl

/-- C2: index selection on an input of known rank at least 1 succeeds with
output rank exactly 2, dimension 0 equal to the input rank and dimension 1
unknown. -/
theorem C2_nonzero_out_shape (dims : List Dimension) (h : 1 ≤ dims.length) :
    NonZero.validate_and_infer_types (.staticRank dims)
      = .ok (.staticRank [.known dims.length, .dynamic], .i64) := by
  cases dims with
  | nil => simp at h
  | cons d ds => rfl

theorem C2_nonzero_out_shape_witness :
    NonZero.validate_and_infer_types (.staticRank [.dynamic])
      = .ok (.staticRank [.known 1, .dynamic], .i64) :=
  C2_nonzero_out_shape [.dynamic] (by decide)

/-- C3: index selection on the rank-0 input always fails, with a diagnostic
naming the input and its observed rank, and rank 1 is the minimum accepted
rank. -/
theorem C3_nonzero_scalar_rejected :
    NonZero.validate_and_infer_types (.staticRank []) = .error nonZeroScalarMsg ∧
    msgHas nonZeroScalarMsg "data" = true ∧
    msgHas nonZeroScalarMsg "rank 0" = true ∧
    (∀ d : Dimension, NonZero.validate_and_infer_types (.staticRank [d])
      = .ok (.staticRank [.known 1, .dynamic], .i64)) :=
  ⟨rfl, by decide, by decide, fun _ => rfl⟩

/-- C4: a boxes input of known rank other than 3 makes box filtering fail
with the diagnostic naming the boxes input and stating the required rank
of 3. -/
theorem C4_nms_boxes_rank (boxes scores : PartialShape) (m i s : Option PartialShape)
    (r : Nat) (hr : boxes.rank = some r) (hne : r ≠ 3) :
    NonMaxSuppression.validate_and_infer_types boxes scores m i s
        = .error nmsBoxesRankMsg ∧
    msgHas nmsBoxesRankMsg "\x27boxes\x27" = true ∧
    msgHas nmsBoxesRankMsg "3D tensor" = true := by
  refine ⟨?_, by decide, by decide⟩
  have hb : rankKnownAndNot boxes 3 = true := by
    unfold rankKnownAndNot
    rw [hr]
    simpa using hne
  unfold NonMaxSuppression.validate_and_infer_types
  rw [hb]
  simp

theorem C4_nms_boxes_rank_witness :
    NonMaxSuppression.validate_and_infer_types
        (.staticRank [.known 1, .known 2, .known 3, .known 4])
        (.staticRank [.known 1, .known 2, .known 3]) none none none
        = .error nmsBoxesRankMsg ∧
    msgHas nmsBoxesRankMsg "\x27boxes\x27" = true ∧
    msgHas nmsBoxesRankMsg "3D tensor" = true :=
  C4_nms_boxes_rank (.staticRank [.known 1, .known 2, .known 3, .known 4])
    (.staticRank [.known 1, .known 2, .known 3]) none none none 4 rfl (by decide)

/-- C5: with a rank-3 boxes input, a scores input of known rank other than 3
makes box filtering fail with the diagnostic naming the scores input. -/
theorem C5_nms_scores_rank (boxes scores : PartialShape) (m i s : Option PartialShape)
    (hb : boxes.rank = some 3) (r : Nat) (hr : scores.rank = some r) (hne : r ≠ 3) :
    NonMaxSuppression.validate_and_infer_types boxes scores m i s
        = .error nmsScoresRankMsg ∧
    msgHas nmsScoresRankMsg "\x27scores\x27" = true := by
  refine ⟨?_, by decide⟩
  have hbf : rankKnownAndNot boxes 3 = false := by
    unfold rankKnownAndNot
    rw [hb]
    simp
  have hsf : rankKnownAndNot scores 3 = true := by
    unfold rankKnownAndNot
    rw [hr]
    simpa using hne
  unfold NonMaxSuppression.validate_and_infer_types
  rw [hbf, hsf]
  simp

theorem C5_nms_scores_rank_witness :
    NonMaxSuppression.validate_and_infer_types
        (.staticRank [.known 1, .known 2, .known 3])
        (.staticRank [.known 1, .known 2]) none none none
        = .error nmsScoresRankMsg ∧
    msgHas nmsScoresRankMsg "\x27scores\x27" = true :=
  C5_nms_scores_rank (.staticRank [.known 1, .known 2, .known 3])
    (.staticRank [.known 1, .known 2]) none none none rfl 2 rfl (by decide)

/-- C6: rank-3 boxes and scores inputs whose known first dimensions differ
make box filtering fail with the diagnostic citing the first dimension of
both inputs jointly. -/
theorem C6_nms_num_batches (a b : Nat) (d1 d2 e1 e2 : Dimension)
    (m i s : Option PartialShape) (hne : a ≠ b) :
    NonMaxSuppression.validate_and_infer_types
        (.staticRank [.known a, d1, d2]) (.staticRank [.known b, e1, e2]) m i s
        = .error nmsNumBatchesMsg ∧
    msgHas nmsNumBatchesMsg "The first dimension of both \x27boxes\x27 and \x27scores\x27 must match" = true := by
  refine ⟨?_, by decide⟩
  unfold NonMaxSuppression.validate_and_infer_types
  simp [rankKnownAndNot, PartialShape.rank, PartialShape.dim, Dimension.compatible, hne]

theorem C6_nms_num_batches_witness :
    NonMaxSuppression.validate_and_infer_types
        (.staticRank [.known 1, .known 2, .known 3])
        (.staticRank [.known 2, .known 2, .known 3]) none none none
        = .error nmsNumBatchesMsg ∧
    msgHas nmsNumBatchesMsg "The first dimension of both \x27boxes\x27 and \x27scores\x27 must match" = true :=
  C6_nms_num_batches 1 2 (.known 2) (.known 3) (.known 2) (.known 3)
    none none none (by decide)

/-- C7: with matching first dimensions, rank-3 boxes and scores inputs whose
known num_boxes counts (boxes dimension 1 and scores dimension 2) differ
make box filtering fail with the diagnostic stating both inputs and both
dimension positions. -/
theorem C7_nms_num_boxes (d0 e0 : Dimension) (p q : Nat) (d2 e1 : Dimension)
    (m i s : Option PartialShape)
    (hc : Dimension.compatible d0 e0 = true) (hne : p ≠ q) :
    NonMaxSuppression.validate_and_infer_types
        (.staticRank [d0, .known p, d2]) (.staticRank [e0, e1, .known q]) m i s
        = .error nmsNumBoxesMsg ∧
    msgHas nmsNumBoxesMsg "\x27boxes\x27 and \x27scores\x27 input shapes must match at the second and third dimension respectively" = true := by
  refine ⟨?_, by decide⟩
  unfold NonMaxSuppression.validate_and_infer_types
  have h3 : Dimension.compatible ((PartialShape.staticRank [d0, .known p, d2]).dim 0)
      ((PartialShape.staticRank [e0, e1, .known q]).dim 0) = true := hc
  have h4 : Dimension.compatible ((PartialShape.staticRank [d0, .known p, d2]).dim 1)
      ((PartialShape.staticRank [e0, e1, .known q]).dim 2) = false := by
    show (p == q) = false
    simpa using hne
  rw [h3, h4]
  rfl

theorem C7_nms_num_boxes_witness :
    NonMaxSuppression.validate_and_infer_types
        (.staticRank [.known 1, .known 2, .known 3])
        (.staticRank [.known 1, .known 2, .known 3]) none none none
        = .error nmsNumBoxesMsg ∧
    msgHas nmsNumBoxesMsg "\x27boxes\x27 and \x27scores\x27 input shapes must match at the second and third dimension respectively" = true :=
  C7_nms_num_boxes (.known 1) (.known 1) 2 3 (.known 3) (.known 2)
    none none none (by decide) (by decide)

/-- C8: with valid boxes and scores, supplying a non-scalar (known non-zero
rank) for exactly one of the three optional scalar inputs, the other two
being rank-0 scalars, makes box filtering fail with the diagnostic naming
exactly that input by its semantic name; the three inputs are validated
independently. -/
theorem C8_nms_scalar_inputs (ps : PartialShape) (r : Nat)
    (hr : ps.rank = some r) (hne : r ≠ 0) :
    (NonMaxSuppression.validate_and_infer_types
        (.staticRank [.known 1, .known 2, .known 4])
        (.staticRank [.known 1, .known 2, .known 2])
        (some ps) (some (.staticRank [])) (some (.staticRank []))
      = .error (nmsScalarMsg "max_output_boxes_per_class")) ∧
    (NonMaxSuppression.validate_and_infer_types
        (.staticRank [.known 1, .known 2, .known 4])
        (.staticRank [.known 1, .known 2, .known 2])
        (some (.staticRank [])) (some ps) (some (.staticRank []))
      = .error (nmsScalarMsg "iou_threshold")) ∧
    (NonMaxSuppression.validate_and_infer_types
        (.staticRank [.known 1, .known 2, .known 4])
        (.staticRank [.known 1, .known 2, .known 2])
        (some (.staticRank [])) (some (.staticRank [])) (some ps)
      = .error (nmsScalarMsg "score_threshold")) ∧
    msgHas (nmsScalarMsg "max_output_boxes_per_class") "max_output_boxes_per_class" = true ∧
    msgHas (nmsScalarMsg "iou_threshold") "iou_threshold" = true ∧
    msgHas (nmsScalarMsg "score_threshold") "score_threshold" = true := by
  have hv : nonScalarViolation (some ps) = true := by
    show rankKnownAndNot ps 0 = true
    unfold rankKnownAndNot
    rw [hr]
    simpa using hne
  refine ⟨?_, ?_, ?_, by decide, by decide, by decide⟩
  all_goals
    unfold NonMaxSuppression.validate_and_infer_types
    rw [hv]
    rfl

theorem C8_nms_scalar_inputs_witness :
    (NonMaxSuppression.validate_and_infer_types
        (.staticRank [.known 1, .known 2, .known 4])
        (.staticRank [.known 1, .known 2, .known 2])
        (some (.staticRank [.known 1])) (some (.staticRank [])) (some (.staticRank []))
      = .error (nmsScalarMsg "max_output_boxes_per_class")) ∧
    (NonMaxSuppression.validate_and_infer_types
        (.staticRank [.known 1, .known 2, .known 4])
        (.staticRank [.known 1, .known 2, .known 2])
        (some (.staticRank [])) (some (.staticRank [.known 1])) (some (.staticRank []))
      = .error (nmsScalarMsg "iou_threshold")) ∧
    (NonMaxSuppression.validate_and_infer_types
        (.staticRank [.known 1, .known 2, .known 4])
        (.staticRank [.known 1, .known 2, .known 2])
        (some (.staticRank [])) (some (.staticRank [])) (some (.staticRank [.known 1]))
      = .error (nmsScalarMsg "score_threshold")) ∧
    msgHas (nmsScalarMsg "max_output_boxes_per_class") "max_output_boxes_per_class" = true ∧
    msgHas (nmsScalarMsg "iou_threshold") "iou_threshold" = true ∧
    msgHas (nmsScalarMsg "score_threshold") "score_threshold" = true :=
  C8_nms_scalar_inputs (.staticRank [.known 1]) 1 rfl (by decide)

/-- C9: the inference entry point is idempotent: when it succeeds on a node,
running it again on the resulting node (its inputs unchanged) succeeds and
produces the identical output partial shape and element type. -/
theorem C9_infer_idempotent (n n2 : Node)
    (h : n.validateAndInferTypes = .ok n2) :
    n2.validateAndInferTypes = .ok n2 := by
  unfold Node.validateAndInferTypes at h ⊢
  cases hk : n.kind.infer with
  | error e =>
    rw [hk] at h
    cases h
  | ok pe =>
    rw [hk] at h
    cases pe with
    | mk ps et =>
      cases h
      rw [hk]

theorem C9_infer_idempotent_witness :
    Node.validateAndInferTypes
        (Node.mk (OpKind.nonZero (.staticRank [.known 5, .known 6]))
          (.staticRank [.known 2, .dynamic]) .i64)
      = .ok (Node.mk (OpKind.nonZero (.staticRank [.known 5, .known 6]))
          (.staticRank [.known 2, .dynamic]) .i64) :=
  C9_infer_idempotent
    (Node.mk (OpKind.nonZero (.staticRank [.known 5, .known 6])) .dynamicRank .dynamic)
    (Node.mk (OpKind.nonZero (.staticRank [.known 5, .known 6]))
      (.staticRank [.known 2, .dynamic]) .i64) (by rfl)

/-- C10: a rank-3 boxes input whose last dimension is a known value other
than 4 is never rejected by the boxes precondition: any failure of box
filtering on such an input carries a diagnostic that does not contain the
boxes rank key phrase, so it cites a later precondition. -/
theorem C10_nms_boxes_last_dim_unchecked (d0 d1 : Dimension) (k : Nat) (_hk : k ≠ 4)
    (scores : PartialShape) (m i s : Option PartialShape) (msg : String)
    (h : NonMaxSuppression.validate_and_infer_types
          (.staticRank [d0, d1, .known k]) scores m i s = .error msg) :
    msgHas msg nmsBoxesRankMsg = false := by
  unfold NonMaxSuppression.validate_and_infer_types at h
  rw [show rankKnownAndNot (.staticRank [d0, d1, .known k]) 3 = false from rfl] at h
  simp only [Bool.false_eq_true, if_false] at h
  repeat' split at h
  all_goals first
    | (cases h; decide)
    | cases h

theorem C10_nms_boxes_last_dim_unchecked_witness :
    msgHas nmsNumBoxesMsg nmsBoxesRankMsg = false :=
  C10_nms_boxes_last_dim_unchecked (.known 1) (.known 2) 3 (by decide)
    (.staticRank [.known 1, .known 2, .known 3]) none none none
    nmsNumBoxesMsg rfl

end NGraphSpec
